import Mathlib

set_option maxRecDepth 10000

/-!
Verification development for the rplace backend (package `server`).

The embedding below follows the Go sources:
  - `backend/server/models.go` : the wire/data types, their JSON struct tags,
    and the constants (`maxMessageSize`, `boardWidth`, `boardHeight`, the
    256-slot `Send` channel).
  - `backend/server/init.go`   : `Board.InitBoard`.
  - the websocket file (`Hub.Run`, `Client.Read`, `Client.Write`,
    `InitWebSocket`): we embed the complete variant of this file (the one
    that stamps `SenderUUID`, skips the sender in the broadcast loop, and
    asynchronously unregisters clients whose send channel is full).  The
    `backend/server/websocket.go` draft in the tree is an earlier, abandoned
    revision: it does not compile (`go client.` is a syntax error), its
    messages are raw byte slices with no sender field, and the spec's
    description of the hub matches only the complete variant.

Go details modelled explicitly:
  - `uuid.UUID` values are opaque identifiers; we model them as `Nat`.
    (`models.go` declares `Update.SenderUUID` as `uuid.UUIDs`, a slice type,
    while `Client.Read` assigns a single `uuid.UUID` into it - a type slip
    in the source; the intended single identifier is modelled.)
  - a buffered Go channel of capacity `n` accepts a non-blocking send
    exactly when fewer than `n` messages are buffered (no receiver ready);
    `select { case ch <- m: ... default: ... }` takes the default branch
    when the buffer is full.
  - `encoding/json` serializes a struct field under the name given by its
    `json:"..."` tag, in declaration order.
-/

namespace RPlace

/-- `models.go` `Colour`: three 8-bit channels. No arithmetic is ever
performed on channels, so they are modelled as `Nat` values (the decoded
values of Go `uint8` fields). -/
structure Colour where
  r : Nat
  g : Nat
  b : Nat
deriving DecidableEq, Repr

/-- `models.go` `Pixel`: a colour together with its coordinate.  Go `int`
coordinates are modelled as `Int`. -/
structure Pixel where
  colour : Colour
  x : Int
  y : Int
deriving DecidableEq, Repr

/-- `models.go` constant `boardWidth = 1000`. -/
def boardWidth : Nat := 1000

/-- `models.go` constant `boardHeight = 1000`. -/
def boardHeight : Nat := 1000

/-- `models.go` constant `maxMessageSize = 512` (bytes), installed on the
socket by `Client.Read` via `SetReadLimit`. -/
def maxMessageSize : Nat := 512

/-- Capacity of a client's outbound channel: `make(chan Update, 256)` in
`InitWebSocket`. -/
def sendCap : Nat := 256

/-- The Go zero value of `Pixel` (all-zero colour, zero coordinate).  The
`Board.Pixels` array starts out with this value in every cell, and
`init.go` writes a pixel whose colour channels are all `0` (the literal in
`init.go` names fields `R,G,B` that `Pixel` does not have - another
compile slip in the source; the written value is the zero pixel). -/
def zeroPixel : Pixel := ⟨⟨0, 0, 0⟩, 0, 0⟩

/-- The all-white colour the spec says the grid starts with. -/
def whiteColour : Colour := ⟨255, 255, 255⟩

/-- The board contents `board.Pixels`, indexed as `Pixels[y][x]`
(a total map; only indices below `boardHeight`/`boardWidth` are real
cells). -/
def BoardFn : Type := Nat → Nat → Pixel

/-- Store `v` at `Pixels[y][x]`. -/
def writeCell (p : BoardFn) (y x : Nat) (v : Pixel) : BoardFn :=
  fun y0 x0 => if y0 = y ∧ x0 = x then v else p y0 x0

/-- The inner loop of `Board.InitBoard` (`init.go`): for `x` from `0` to
`boardWidth-1`, set `Pixels[y][x]` to the zero pixel. -/
def initRow (p : BoardFn) (y : Nat) : BoardFn :=
  (List.range boardWidth).foldl (fun acc x => writeCell acc y x zeroPixel) p

/-- `Board.InitBoard` (`init.go` lines 3-15): the nested loop over
`y < boardHeight`, `x < boardWidth` writing the zero pixel everywhere. -/
def initBoard (p : BoardFn) : BoardFn :=
  (List.range boardHeight).foldl (fun acc y => initRow acc y) p

/-- The board as the process starts: the Go zero-valued `Pixels` array. -/
def board0 : BoardFn := fun _ _ => zeroPixel

/-- `models.go` `Update`: the message relayed between clients.  Field order
and JSON tags as declared: `Type` tagged `json:"update"`, `Pixel` tagged
`json:"pixel"`, `SenderUUID` tagged `json:"senderUUID"`. -/
structure Update where
  type : String
  pixel : Pixel
  senderUUID : Nat
deriving DecidableEq, Repr

/-- A JSON value, used to state what `WriteJSON` puts on the wire. -/
inductive Json where
  | str : String → Json
  | num : Int → Json
  | obj : List (String × Json) → Json
  | arr : List Json → Json
deriving Repr

/-- Look a key up in a JSON object (first match, as a JSON reader would). -/
def Json.lookupField : Json → String → Option Json
  | .obj fields, k => fields.lookup k
  | _, _ => none

/-- `encoding/json` on `Colour` with its tags `r`, `g`, `b`. -/
def Colour.toJson (c : Colour) : Json :=
  .obj [("r", .num c.r), ("g", .num c.g), ("b", .num c.b)]

/-- `encoding/json` on `Pixel` with its tags `colour`, `x`, `y`. -/
def Pixel.toJson (p : Pixel) : Json :=
  .obj [("colour", p.colour.toJson), ("x", .num p.x), ("y", .num p.y)]

/-- `encoding/json` on `Update` with its declared tags: the `Type` field's
tag is `update` (not `type`), then `pixel`, then `senderUUID`.  The
sender identifier is serialized as its opaque value. -/
def Update.toJson (u : Update) : Json :=
  .obj [("update", .str u.type), ("pixel", u.pixel.toJson),
        ("senderUUID", .num u.senderUUID)]

/-! ### The hub (`Hub.Run`)

The hub owns `clients : map[uuid.UUID]*Client`.  Each registry entry is
modelled by the data the hub sees: the client's identifier and the
contents of its buffered `Send` channel. -/

/-- A registry entry: a client's identifier and its buffered outbound
queue (`Send`, capacity `sendCap`). -/
structure HClient where
  uuid : Nat
  send : List Update
deriving DecidableEq, Repr

/-- The `unregister` arm of `Hub.Run`: if the identifier is present the
entry is deleted and its send channel closed; otherwise nothing happens.
Returns the new registry and whether `close(client.Send)` ran. -/
def hubUnregister (clients : List HClient) (u : Nat) : List HClient × Bool :=
  if clients.any fun c => c.uuid == u then
    (clients.filter fun c => c.uuid != u, true)
  else
    (clients, false)

/-- One client's treatment inside the `broadcast` arm of `Hub.Run`: the
sender is skipped; otherwise a non-blocking send onto `Send` is attempted,
and if the buffer is full the client is scheduled for unregistration (the
`go func { h.unregister <- c }` branch).  Returns the entry afterwards and
the identifier scheduled for `unregister`, if any. -/
def broadcastClient (msg : Update) (c : HClient) : HClient × Option Nat :=
  if c.uuid = msg.senderUUID then (c, none)
  else if c.send.length < sendCap then ({ c with send := c.send ++ [msg] }, none)
  else (c, some c.uuid)

/-- The `broadcast` arm of `Hub.Run`: every registry entry is processed by
`broadcastClient`; the hub itself never blocks - full queues only produce
asynchronously scheduled unregistrations, returned as the second
component. -/
def hubBroadcast (clients : List HClient) (msg : Update) :
    List HClient × List Nat :=
  (clients.map fun c => (broadcastClient msg c).1,
   clients.filterMap fun c => (broadcastClient msg c).2)

/-! ### The connection pump (`Client.Read`, `Client.Write`) -/

/-- An inbound wire frame as the read loop sees it: its size in bytes and
the result of decoding it as an `Update` (`none` for malformed JSON). -/
structure WireFrame where
  size : Nat
  decoded : Option Update
deriving DecidableEq, Repr

/-- What one iteration of `Client.Read` does with a frame. -/
inductive ReadOutcome where
  /-- `ReadJSON` returned an error: the loop breaks (the deferred cleanup
  then unregisters the client and closes the socket). -/
  | exitLoop : ReadOutcome
  /-- The message was decoded, stamped, and submitted to `broadcast`. -/
  | relay : Update → ReadOutcome
deriving DecidableEq, Repr

/-- One iteration of `Client.Read`'s loop: the transport rejects frames
over the read limit (`SetReadLimit maxMessageSize`) before any decoding,
malformed frames fail to decode; both make `ReadJSON` return an error and
break the loop.  A decoded message is stamped with this connection's
identifier and type `"update"` and submitted to the hub's broadcast
channel.  No coordinate validation and no board write occur anywhere in
the loop. -/
def readStep (selfUuid : Nat) (w : WireFrame) : ReadOutcome :=
  if maxMessageSize < w.size then .exitLoop
  else
    match w.decoded with
    | none => .exitLoop
    | some msg => .relay { msg with senderUUID := selfUuid, type := "update" }

/-- What running `Client.Read` over a sequence of frames produced: the
messages submitted to `broadcast`, and whether the deferred cleanup
(`HubInstance.unregister <- c` and `c.Socket.Close()`) ran - it runs
exactly when the loop breaks. -/
structure ReadLoopResult where
  broadcasts : List Update
  unregisterIssued : Bool
  socketClosed : Bool
deriving DecidableEq, Repr

/-- `Client.Read` over a list of arriving frames.  If every frame relays
and the list is exhausted, the loop is still blocked in `ReadJSON`:
no cleanup has run and the connection is still open. -/
def runReadLoop (selfUuid : Nat) : List WireFrame → ReadLoopResult
  | [] => ⟨[], false, false⟩
  | w :: ws =>
    match readStep selfUuid w with
    | .exitLoop => ⟨[], true, true⟩
    | .relay m =>
      let rest := runReadLoop selfUuid ws
      ⟨m :: rest.broadcasts, rest.unregisterIssued, rest.socketClosed⟩

/-- `Client.Read` with the board threaded through, to state what the loop
does to the grid: the loop body never reads or writes `board`, so the
board component is passed through untouched. -/
def readStepBoard (b : BoardFn) (selfUuid : Nat) (w : WireFrame) :
    BoardFn × ReadOutcome :=
  (b, readStep selfUuid w)

/-- What `Client.Write` can put on the wire. -/
inductive WriteAction where
  | sendJson : Json → WriteAction
  | sendCloseFrame : WriteAction
  | sendPing : WriteAction
deriving Repr

/-- An event waking the write loop's `select`. -/
inductive WriteEvent where
  /-- A message received from the `Send` channel. -/
  | msg : Update → WriteEvent
  /-- The `Send` channel was closed (receive with `ok = false`). -/
  | chanClosed : WriteEvent
  /-- The keepalive ticker fired. -/
  | tick : WriteEvent
deriving Repr

/-- One iteration of `Client.Write`: a buffered message is written with
`WriteJSON`; a closed channel makes the loop write a close frame and
return; a ticker tick sends a ping.  The second component records whether
the loop keeps running. -/
def writeStep : WriteEvent → WriteAction × Bool
  | .msg m => (.sendJson m.toJson, true)
  | .chanClosed => (.sendCloseFrame, false)
  | .tick => (.sendPing, true)

/-! ### The upgrade handler (`InitWebSocket`) -/

/-- The steps `InitWebSocket` performs after a successful upgrade, in
program order. -/
inductive ConnStep where
  /-- Allocate the `Client` (fresh uuid, `Send` channel, username). -/
  | createClient : ConnStep
  /-- `HubInstance.clients[client.uuid] = client` - the join. -/
  | registerClient : ConnStep
  /-- Read `board.Pixels` under `board.mu.RLock` into the init message. -/
  | takeSnapshot : ConnStep
  /-- `client.Socket.WriteJSON(boardState)` - send the snapshot. -/
  | sendSnapshot : ConnStep
  /-- `go client.Read()`. -/
  | startReadLoop : ConnStep
  /-- `go client.Write()`. -/
  | startWriteLoop : ConnStep
deriving DecidableEq, Repr

/-- The order of operations in `InitWebSocket`'s handler (the complete
websocket file, lines 140-160): the client is inserted into
`HubInstance.clients` first, then the snapshot is taken and sent, then the
two pump loops start. -/
def initWebSocketSteps : List ConnStep :=
  [.createClient, .registerClient, .takeSnapshot, .sendSnapshot,
   .startReadLoop, .startWriteLoop]

/-- The snapshot `InitWebSocket` sends: a copy of `board.Pixels` taken
under the read lock, wrapped as the init message.  The pixel data is the
board's current contents. -/
def initSnapshot (b : BoardFn) : BoardFn := b

/-! ### Concrete sample data for closed instantiations -/

/-- The red colour of the spec's worked scenario. -/
def redColour : Colour := ⟨255, 0, 0⟩

/-- A decoded in-bounds client request colouring cell `(3,4)` red, sent by
the connection with identifier `7` (a 60-byte frame). -/
def sampleFrame : WireFrame := ⟨60, some ⟨"", ⟨redColour, 3, 4⟩, 0⟩⟩

/-- `sampleFrame` as relayed: stamped with type and sender `7`. -/
def sampleUpdate : Update := ⟨"update", ⟨redColour, 3, 4⟩, 7⟩

/-- A well-formed request whose `x = 1500` lies outside the
`boardWidth = 1000` grid. -/
def sampleOobFrame : WireFrame := ⟨60, some ⟨"", ⟨redColour, 1500, 4⟩, 0⟩⟩

/-- `sampleOobFrame` as relayed by connection `7`. -/
def sampleOobUpdate : Update := ⟨"update", ⟨redColour, 1500, 4⟩, 7⟩

/-- Another decoded request, from connection `9`. -/
def sampleFrame2 : WireFrame := ⟨40, some ⟨"", ⟨⟨0, 128, 255⟩, 10, 20⟩, 3⟩⟩

/-- `sampleFrame2` as relayed by connection `9`. -/
def sampleUpdate2 : Update := ⟨"update", ⟨⟨0, 128, 255⟩, 10, 20⟩, 9⟩

/-- A broadcast message whose sender is connection `1`. -/
def sampleBroadcast : Update := ⟨"update", zeroPixel, 1⟩

/-- A completely full outbound queue (`sendCap` buffered messages). -/
def fullQueue : List Update := List.replicate sendCap ⟨"update", zeroPixel, 9⟩

/-! ## Helper lemmas -/

/-- A fold of writes along one row, looked up in that row: a cell is the
written value exactly when its column was visited. -/
theorem foldl_write_row (l : List Nat) (acc : BoardFn) (y x : Nat) (v : Pixel) :
    (l.foldl (fun a x0 => writeCell a y x0 v) acc) y x =
      if x ∈ l then v else acc y x := by
  induction l generalizing acc with
  | nil => simp
  | cons hd tl ih =>
    rw [List.foldl_cons, ih]
    by_cases hx : x ∈ tl
    · simp [hx]
    · by_cases he : x = hd
      · simp [hx, he, writeCell]
      · simp [hx, he, writeCell]

/-- A fold of writes along row `y` leaves every other row unchanged. -/
theorem foldl_write_row_other (l : List Nat) (acc : BoardFn) (y y0 x0 : Nat)
    (v : Pixel) (h : y0 ≠ y) :
    (l.foldl (fun a x1 => writeCell a y x1 v) acc) y0 x0 = acc y0 x0 := by
  induction l generalizing acc with
  | nil => rfl
  | cons hd tl ih =>
    rw [List.foldl_cons, ih]
    exact if_neg (fun hc => h hc.1)

/-- `initRow` zeroes every in-range cell of its row. -/
theorem initRow_self (p : BoardFn) (y x : Nat) (hx : x < boardWidth) :
    initRow p y y x = zeroPixel := by
  rw [initRow, foldl_write_row, if_pos (List.mem_range.mpr hx)]

/-- `initRow` never turns a zero cell nonzero, in any row. -/
theorem initRow_keeps_zero (p : BoardFn) (y0 y x : Nat)
    (h : p y x = zeroPixel) : initRow p y0 y x = zeroPixel := by
  by_cases hy : y = y0
  · subst hy
    rw [initRow, foldl_write_row]
    split <;> simp [h]
  · rw [initRow, foldl_write_row_other _ _ _ _ _ _ hy]
    exact h

/-- Folding `initRow` over any rows preserves zero cells. -/
theorem foldl_initRow_keeps_zero (rows : List Nat) (acc : BoardFn) (y x : Nat)
    (h : acc y x = zeroPixel) :
    (rows.foldl (fun a y0 => initRow a y0) acc) y x = zeroPixel := by
  induction rows generalizing acc with
  | nil => exact h
  | cons hd tl ih => exact ih _ (initRow_keeps_zero acc hd y x h)

/-- Folding `initRow` over a list of rows zeroes every visited row's
in-range cells. -/
theorem foldl_initRow_covers (rows : List Nat) (y x : Nat)
    (hx : x < boardWidth) :
    ∀ acc : BoardFn, y ∈ rows →
      (rows.foldl (fun a y0 => initRow a y0) acc) y x = zeroPixel := by
  induction rows with
  | nil => intro acc hy; cases hy
  | cons hd tl ih =>
    intro acc hy
    rcases List.mem_cons.mp hy with he | ht
    · subst he
      exact foldl_initRow_keeps_zero tl _ y x (initRow_self acc y x hx)
    · exact ih _ ht

/-- `Board.InitBoard` writes the zero pixel into every in-range cell,
whatever the array held before. -/
theorem initBoard_cell (p : BoardFn) (y x : Nat)
    (hy : y < boardHeight) (hx : x < boardWidth) :
    initBoard p y x = zeroPixel :=
  foldl_initRow_covers (List.range boardHeight) y x hx p (List.mem_range.mpr hy)

/-- A relayed message carries the reading connection's identifier and the
stamped type. -/
theorem readStep_relay_eq (selfUuid : Nat) (w : WireFrame) (m : Update)
    (h : readStep selfUuid w = .relay m) :
    m.senderUUID = selfUuid ∧ m.type = "update" := by
  rw [readStep] at h
  by_cases hs : maxMessageSize < w.size
  · rw [if_pos hs] at h
    simp at h
  · rw [if_neg hs] at h
    cases hd : w.decoded with
    | none => rw [hd] at h; simp at h
    | some msg =>
      rw [hd] at h
      cases h
      exact ⟨rfl, rfl⟩

/-! ## The claims -/

/-- C1: the spec says a valid update is applied to the grid by the grid
store's write before being broadcast, so a later joiner's init snapshot
shows the new colour.  The read loop contains no grid write at all: after
connection `7` relays the request colouring cell `(3,4)` red on a freshly
initialized board, the board is returned unchanged (while the update is
broadcast), and the snapshot a later joiner receives still holds the
initial zero colour at `(3,4)`, not red. -/
theorem read_relay_leaves_board_unchanged :
    readStepBoard (initBoard board0) 7 sampleFrame
      = (initBoard board0, .relay sampleUpdate)
    ∧ (initSnapshot (initBoard board0) 4 3).colour = ⟨0, 0, 0⟩
    ∧ (⟨0, 0, 0⟩ : Colour) ≠ redColour := by
  refine ⟨rfl, ?_, by decide⟩
  show (initBoard board0 4 3).colour = ⟨0, 0, 0⟩
  rw [initBoard_cell board0 4 3 (by decide) (by decide)]
  rfl

/-- C2: given room in every other connection's queue, the hub's broadcast
arm enqueues the message to exactly the registry entries whose identifier
differs from the event's sender and leaves the sender's own entry
untouched: no self-echo. -/
theorem hub_broadcast_skips_sender (clients : List HClient) (msg : Update)
    (hroom : ∀ c ∈ clients, c.uuid ≠ msg.senderUUID →
      c.send.length < sendCap) :
    (hubBroadcast clients msg).1
      = clients.map fun c =>
          if c.uuid = msg.senderUUID then c
          else { c with send := c.send ++ [msg] } := by
  apply List.map_congr_left
  intro c hc
  by_cases h : c.uuid = msg.senderUUID
  · simp [broadcastClient, h]
  · simp [broadcastClient, h, hroom c hc h]

/-- C2 witness: a concrete two-client registry with sender `1`. -/
theorem hub_broadcast_skips_sender_witness :
    (hubBroadcast [⟨1, []⟩, ⟨2, []⟩] sampleBroadcast).1
      = [⟨1, []⟩, ⟨2, [sampleBroadcast]⟩] := by
  rw [hub_broadcast_skips_sender [⟨1, []⟩, ⟨2, []⟩] sampleBroadcast
    (by decide)]
  rfl

/-- C3: the spec says an out-of-range update (here `x = 1500` on a
`boardWidth = 1000` grid) is silently discarded with no broadcast.  The
read loop performs no bounds check: the well-formed frame is stamped and
submitted to the hub's broadcast (a nonempty broadcast list), although the
connection does remain open and the loop never touches the grid. -/
theorem read_oob_update_still_broadcast :
    (boardWidth : Int) ≤ 1500
    ∧ runReadLoop 7 [sampleOobFrame] = ⟨[sampleOobUpdate], false, false⟩
    ∧ ([sampleOobUpdate] : List Update) ≠ [] := by
  refine ⟨by decide, rfl, by decide⟩

/-- C4: the spec requires the join to happen no earlier than after the
snapshot send completes.  In the upgrade handler the insertion into the
hub's client map strictly precedes taking and sending the snapshot. -/
theorem join_precedes_snapshot_send :
    initWebSocketSteps.findIdx (fun s => decide (s = .registerClient))
      < initWebSocketSteps.findIdx (fun s => decide (s = .sendSnapshot)) := by
  decide

/-- C5: a non-sender whose queue is full is not enqueued to (its entry is
unchanged, the hub never blocks on it) and is instead scheduled for
asynchronous unregistration, while any other non-sender with room still
gets the message - the slow consumer affects nobody else's delivery. -/
theorem hub_broadcast_full_queue_evicts (clients : List HClient)
    (msg : Update) (c c2 : HClient) (hc : c ∈ clients)
    (hfull : sendCap ≤ c.send.length) (hns : c.uuid ≠ msg.senderUUID)
    (h2 : c2.uuid ≠ msg.senderUUID) (hroom : c2.send.length < sendCap) :
    broadcastClient msg c = (c, some c.uuid)
    ∧ c.uuid ∈ (hubBroadcast clients msg).2
    ∧ (broadcastClient msg c2).1 = { c2 with send := c2.send ++ [msg] } := by
  have hb : broadcastClient msg c = (c, some c.uuid) := by
    unfold broadcastClient
    rw [if_neg hns, if_neg (Nat.not_lt.mpr hfull)]
  refine ⟨hb, ?_, ?_⟩
  · exact List.mem_filterMap.mpr ⟨c, hc, by rw [hb]⟩
  · unfold broadcastClient
    rw [if_neg h2, if_pos hroom]

/-- C5 witness: sender `1`, client `2` with a full queue is evicted,
client `3` with an empty queue still receives the message. -/
theorem hub_broadcast_full_queue_evicts_witness :
    broadcastClient sampleBroadcast ⟨2, fullQueue⟩ = (⟨2, fullQueue⟩, some 2)
    ∧ (2 : Nat) ∈ (hubBroadcast [⟨3, []⟩, ⟨2, fullQueue⟩] sampleBroadcast).2
    ∧ (broadcastClient sampleBroadcast ⟨3, []⟩).1 = ⟨3, [sampleBroadcast]⟩ :=
  hub_broadcast_full_queue_evicts [⟨3, []⟩, ⟨2, fullQueue⟩] sampleBroadcast
    ⟨2, fullQueue⟩ ⟨3, []⟩ (by decide) (by decide) (by decide) (by decide)
    (by decide)

/-- C6: the spec says the grid starts all-white (no other default is
configured anywhere in the code).  `InitBoard` writes the all-zero
(black) colour into every cell: cell `(0,0)` of the freshly initialized
board is black, not white. -/
theorem init_board_black_not_white :
    (initBoard board0 0 0).colour = ⟨0, 0, 0⟩
    ∧ (initBoard board0 0 0).colour ≠ whiteColour := by
  have h := initBoard_cell board0 0 0 (by decide) (by decide)
  exact ⟨by rw [h]; rfl, by rw [h]; decide⟩

/-- C7: the spec (and the repository's frontend) expect broadcast
messages shaped `type:"update"` with top-level `x`,`y` and `pixel` of
`r`,`g`,`b`.  The JSON the write loop actually emits for an update has no
`type` field and no top-level `x` field: the `Type` field's json tag is
`update`, the coordinates live inside `pixel` next to a nested `colour`
object, and a `senderUUID` field is added. -/
theorem update_json_shape_diverges :
    (writeStep (.msg sampleUpdate)).1 = .sendJson sampleUpdate.toJson
    ∧ sampleUpdate.toJson.lookupField "type" = none
    ∧ sampleUpdate.toJson.lookupField "x" = none
    ∧ sampleUpdate.toJson
        = .obj [("update", .str "update"),
            ("pixel", .obj [("colour", .obj [("r", .num 255), ("g", .num 0),
               ("b", .num 0)]), ("x", .num 3), ("y", .num 4)]),
            ("senderUUID", .num 7)] :=
  ⟨rfl, rfl, rfl, rfl⟩

/-- C8: the hub's unregister arm is idempotent: a present identifier is
removed and its send channel closed (which makes the write loop emit a
close frame and terminate); an absent identifier is a no-op that leaves
the registry unchanged, so a second unregister of the same identifier is
always safe. -/
theorem hub_unregister_idempotent (clients : List HClient) (u : Nat) :
    hubUnregister (hubUnregister clients u).1 u
      = ((hubUnregister clients u).1, false)
    ∧ ((clients.any fun c => c.uuid == u) = true →
        (hubUnregister clients u).2 = true
        ∧ (hubUnregister clients u).1
            = clients.filter fun c => c.uuid != u)
    ∧ ((clients.any fun c => c.uuid == u) = false →
        hubUnregister clients u = (clients, false))
    ∧ writeStep .chanClosed = (.sendCloseFrame, false) := by
  have hsecond : ∀ l : List HClient,
      (l.any fun c => c.uuid == u) = false → hubUnregister l u = (l, false) := by
    intro l hl
    unfold hubUnregister
    rw [if_neg (by simp [hl])]
  have hkey : ((clients.filter fun c => c.uuid != u).any
      fun c => c.uuid == u) = false := by
    rw [List.any_eq_false]
    intro c hcmem
    have h2 := (List.mem_filter.mp hcmem).2
    simp only [bne_iff_ne, ne_eq] at h2
    simp [h2]
  refine ⟨?_, ?_, fun hf => hsecond clients hf, rfl⟩
  · by_cases h : (clients.any fun c => c.uuid == u) = true
    · have h1 : hubUnregister clients u
          = (clients.filter fun c => c.uuid != u, true) := by
        unfold hubUnregister
        rw [if_pos h]
      rw [h1]
      exact hsecond _ hkey
    · have hf : (clients.any fun c => c.uuid == u) = false := by
        cases hq : clients.any fun c => c.uuid == u
        · rfl
        · exact absurd hq h
      rw [hsecond clients hf]
      exact hsecond clients hf
  · intro h
    have h1 : hubUnregister clients u
        = (clients.filter fun c => c.uuid != u, true) := by
      unfold hubUnregister
      rw [if_pos h]
    exact ⟨by rw [h1], by rw [h1]⟩

/-- C8 witness: a one-client registry, unregistering identifier `5`. -/
theorem hub_unregister_idempotent_witness :
    hubUnregister (hubUnregister [(⟨5, []⟩ : HClient)] 5).1 5
      = ((hubUnregister [(⟨5, []⟩ : HClient)] 5).1, false)
    ∧ ((([(⟨5, []⟩ : HClient)]).any fun c => c.uuid == 5) = true →
        (hubUnregister [(⟨5, []⟩ : HClient)] 5).2 = true
        ∧ (hubUnregister [(⟨5, []⟩ : HClient)] 5).1
            = ([(⟨5, []⟩ : HClient)]).filter fun c => c.uuid != 5)
    ∧ ((([(⟨5, []⟩ : HClient)]).any fun c => c.uuid == 5) = false →
        hubUnregister [(⟨5, []⟩ : HClient)] 5 = ([(⟨5, []⟩ : HClient)], false))
    ∧ writeStep .chanClosed = (.sendCloseFrame, false) :=
  hub_unregister_idempotent [(⟨5, []⟩ : HClient)] 5

/-- C9: every update the read loop relays carries the reading
connection's identifier in `SenderUUID`, and the write loop serializes it
to every recipient under the `senderUUID` key: the sender's identity is
disclosed to the other clients. -/
theorem broadcast_carries_sender_uuid (selfUuid : Nat) (w : WireFrame)
    (m : Update) (h : readStep selfUuid w = .relay m) :
    m.senderUUID = selfUuid
    ∧ (writeStep (.msg m)).1 = .sendJson m.toJson
    ∧ m.toJson.lookupField "senderUUID" = some (.num selfUuid) := by
  obtain ⟨hs, -⟩ := readStep_relay_eq selfUuid w m h
  refine ⟨hs, rfl, ?_⟩
  rw [← hs]
  rfl

/-- C9 witness: connection `9` relays `sampleFrame2`. -/
theorem broadcast_carries_sender_uuid_witness :
    readStep 9 sampleFrame2 = .relay sampleUpdate2
    ∧ (sampleUpdate2.senderUUID = 9
       ∧ (writeStep (.msg sampleUpdate2)).1 = .sendJson sampleUpdate2.toJson
       ∧ sampleUpdate2.toJson.lookupField "senderUUID" = some (.num 9)) :=
  ⟨rfl, broadcast_carries_sender_uuid 9 sampleFrame2 sampleUpdate2 rfl⟩

/-- C10: a frame over the 512-byte read limit makes the transport read
fail before any decoding: the loop breaks at once (running the deferred
unregister and socket close) and nothing is broadcast, whatever the frame
would have decoded to and whatever frames follow. -/
theorem oversize_frame_closes_connection (selfUuid : Nat) (w : WireFrame)
    (ws : List WireFrame) (h : maxMessageSize < w.size) :
    runReadLoop selfUuid (w :: ws) = ⟨[], true, true⟩ := by
  simp [runReadLoop, readStep, h]

/-- C10 witness: a 513-byte frame (even a decodable one) from connection
`4`. -/
theorem oversize_frame_closes_connection_witness :
    maxMessageSize < (513 : Nat)
    ∧ runReadLoop 4 [⟨513, some sampleUpdate⟩] = ⟨[], true, true⟩ :=
  ⟨by decide,
   oversize_frame_closes_connection 4 ⟨513, some sampleUpdate⟩ [] (by decide)⟩

end RPlace
